import Mathlib

/-!
Verification development for the `backend_feel-your-emotions` (EmoTracker)
repository. The Python source is shallowly embedded:

* optional integer survey answers become `Option ℤ`;
* Python float arithmetic is modelled by exact rational arithmetic (`ℚ`);
* Python truthiness (`x or 3`, `if self.mood and ...`, `any([...])`) is
  modelled explicitly via `truthy`, so that `0` and `None` behave alike,
  exactly as in the source;
* pandas column means (which skip NaN/absent cells) become means over the
  present values of an `Option`-valued column.

Definitions are translated from the source files
`src/models/survey.py`, `src/routers/survey.py`,
`src/analysis/data_analyzer.py` and `src/services/survey.py`.
Definitions whose names contain `spec` are instead written from the
specification's wording, to be compared with the source embeddings.
-/

namespace EmoTracker

/-- The seven optional response fields of `SurveyBase`
(`src/models/survey.py`).  Each is `None` or an integer; the API layer
constrains present values to `[1,5]`, which theorems take as a hypothesis. -/
structure SurveyResponses where
  mood : Option ℤ
  anxiety : Option ℤ
  sleep : Option ℤ
  social : Option ℤ
  energy : Option ℤ
  stress : Option ℤ
  hopeful : Option ℤ
deriving DecidableEq

/-- Python truthiness of an optional integer: `None` and `0` are falsy. -/
def truthy : Option ℤ → Bool
  | none => false
  | some v => v ≠ 0

/-- Python `x or 3` for an optional integer field: yields `3` when the
field is falsy (`None` or `0`), else the value itself. -/
def orThree : Option ℤ → ℤ
  | none => 3
  | some v => if v = 0 then 3 else v

/-- Embeds `any([self.mood, self.anxiety, self.sleep, self.social, self.energy,
self.stress, self.hopeful])` from `_calculate_wellness_score`. -/
def anyTruthy (r : SurveyResponses) : Bool :=
  truthy r.mood || truthy r.anxiety || truthy r.sleep || truthy r.social ||
    truthy r.energy || truthy r.stress || truthy r.hopeful

/-- Embeds `Survey._calculate_wellness_score` (src/models/survey.py lines 60-82),
with float arithmetic modelled exactly over ℚ: `0.4 = 2/5`, `0.3 = 3/10`;
`max(1, min(5, wellness))` is the final clamp. -/
def calculate_wellness_score (r : SurveyResponses) : ℚ :=
  if anyTruthy r = false then 0
  else
    let positive_avg : ℚ :=
      ((orThree r.sleep + orThree r.social + orThree r.energy + orThree r.hopeful : ℤ) : ℚ) / 4
    let negative_avg : ℚ := ((orThree r.anxiety + orThree r.stress : ℤ) : ℚ) / 2
    let wellness : ℚ :=
      (orThree r.mood : ℚ) * (2/5) + positive_avg * (3/10) + (6 - negative_avg) * (3/10)
    max 1 (min 5 wellness)

/-- Python `x and x <= t` as a Bool: truthy and at most `t`.  Used for the
risk conditions of `_check_crisis_alert`. -/
def truthyLE (o : Option ℤ) (t : ℤ) : Bool :=
  match o with
  | none => false
  | some v => v ≠ 0 && v ≤ t

/-- Python `x and x >= t` as a Bool: truthy and at least `t`. -/
def truthyGE (o : Option ℤ) (t : ℤ) : Bool :=
  match o with
  | none => false
  | some v => v ≠ 0 && t ≤ v

/-- The `risk_count` accumulated by `Survey._check_crisis_alert`
(src/models/survey.py lines 84-102): one hit each for low mood, high
anxiety, high stress, and each low positive factor. -/
def risk_count (r : SurveyResponses) : ℕ :=
  (if truthyLE r.mood 2 then 1 else 0) +
  (if truthyGE r.anxiety 4 then 1 else 0) +
  (if truthyGE r.stress 4 then 1 else 0) +
  (if truthyLE r.sleep 2 then 1 else 0) +
  (if truthyLE r.social 2 then 1 else 0) +
  (if truthyLE r.energy 2 then 1 else 0) +
  (if truthyLE r.hopeful 2 then 1 else 0)

/-- Embeds `Survey._check_crisis_alert` (src/models/survey.py lines 84-111):
`any` of very low mood, severe hopelessness, or at least 4 risk hits. -/
def check_crisis_alert (r : SurveyResponses) : Bool :=
  truthyLE r.mood 2 || truthyLE r.hopeful 1 || decide (4 ≤ risk_count r)

/-- A present value lies in the validated range `[1,5]`
(the `ge=1, le=5` constraints of `SurveyBase`). -/
def inRange : Option ℤ → Bool
  | none => true
  | some v => 1 ≤ v && v ≤ 5

/-- All seven response fields are absent or in `[1,5]`. -/
def Valid (r : SurveyResponses) : Prop :=
  inRange r.mood = true ∧ inRange r.anxiety = true ∧ inRange r.sleep = true ∧
    inRange r.social = true ∧ inRange r.energy = true ∧ inRange r.stress = true ∧
    inRange r.hopeful = true

instance (r : SurveyResponses) : Decidable (Valid r) := by
  unfold Valid; infer_instance

/-- Every one of the seven fields is absent. -/
def allAbsent (r : SurveyResponses) : Bool :=
  r.mood.isNone && r.anxiety.isNone && r.sleep.isNone && r.social.isNone &&
    r.energy.isNone && r.stress.isNone && r.hopeful.isNone

/-- The response set with every field absent. -/
def noData : SurveyResponses :=
  ⟨none, none, none, none, none, none, none⟩

/-- The score formula exactly as the specification words it:
`clamp(0.4·mood + 0.3·mean(sleep,social,energy,hopeful)
 + 0.3·(6 − mean(anxiety,stress)), 1, 5)` with 3 substituted for each
absent field (no truthiness involved). -/
def specClampedScore (r : SurveyResponses) : ℚ :=
  max 1 (min 5
    ((r.mood.getD 3 : ℚ) * (2/5)
      + (((r.sleep.getD 3 + r.social.getD 3 + r.energy.getD 3 + r.hopeful.getD 3 : ℤ) : ℚ) / 4) * (3/10)
      + (6 - ((r.anxiety.getD 3 + r.stress.getD 3 : ℤ) : ℚ) / 2) * (3/10)))

/-- Reads as "field present with value ≤ t", as the specification words the crisis
conditions (presence, not truthiness). -/
def specLE (o : Option ℤ) (t : ℤ) : Bool :=
  match o with
  | none => false
  | some v => v ≤ t

/-- Reads as "field present with value ≥ t", as the specification words it. -/
def specGE (o : Option ℤ) (t : ℤ) : Bool :=
  match o with
  | none => false
  | some v => t ≤ v

/-- The risk-hit count exactly as the specification describes it: one hit
for each of mood ≤ 2, anxiety ≥ 4, stress ≥ 4, and each of
sleep/social/energy/hopeful present with value ≤ 2. -/
def spec_risk_hits (r : SurveyResponses) : ℕ :=
  (if specLE r.mood 2 then 1 else 0) +
  (if specGE r.anxiety 4 then 1 else 0) +
  (if specGE r.stress 4 then 1 else 0) +
  (if specLE r.sleep 2 then 1 else 0) +
  (if specLE r.social 2 then 1 else 0) +
  (if specLE r.energy 2 then 1 else 0) +
  (if specLE r.hopeful 2 then 1 else 0)

/-! ### Trend classification -/

/-- The three trend labels.  `EmotionalDataAnalyzer._calculate_trend`
returns the Spanish strings `mejorando`/`empeorando`/`estable` and
`SurveyService._calculate_trend` the English `improving`/`declining`/
`stable`; both label sets denote these three outcomes. -/
inductive Trend where
  | improving
  | declining
  | stable
deriving DecidableEq

/-- Arithmetic mean of a list of rationals (0 on the empty list, as
`ℚ`-division by zero). -/
def meanQ (l : List ℚ) : ℚ := l.sum / l.length

/-- Computes `Σᵢ (xsᵢ − p)·(ysᵢ − q)` over two lists zipped pairwise. -/
def covAbout (p q : ℚ) (xs ys : List ℚ) : ℚ :=
  (List.zipWith (fun a b => (a - p) * (b - q)) xs ys).sum

/-- Mean-centered covariance sum `Σᵢ (xsᵢ − mean xs)·(ysᵢ − mean ys)`,
the quantity out of which `np.corrcoef` builds the Pearson coefficient. -/
def cov (xs ys : List ℚ) : ℚ := covAbout (meanQ xs) (meanQ ys) xs ys

/-- Embeds `list(range(n))` as rationals. -/
def indexList (n : ℕ) : List ℚ := List.map (fun i : ℕ => (i : ℚ)) (List.range n)

/-- Threshold test shared by the correlation classifiers: with `c` the
covariance sum and `d` the product of the two variance sums, `corr > 0.3`
(where `corr = c/√d`) holds iff `c > 0 ∧ 100·c² > 9·d`, and
`corr < −0.3` iff `c < 0 ∧ 100·c² > 9·d`; when the values are constant,
`d = 0` forces `c = 0` (numpy yields NaN there and both float comparisons
are false), so the result is `stable` in both renderings. -/
def corrTrend (c d : ℚ) : Trend :=
  if 0 < c ∧ 9 * d < 100 * c ^ 2 then .improving
  else if c < 0 ∧ 9 * d < 100 * c ^ 2 then .declining
  else .stable

namespace EmotionalDataAnalyzer

/-- Embeds `EmotionalDataAnalyzer._calculate_trend`
(src/analysis/data_analyzer.py lines 300-322): fewer than two points is
`stable`; otherwise compare the Pearson correlation between
`range(len(values))` and `values` against ±0.3, rendered sqrt-free by
`corrTrend`. -/
def calculate_trend (values : List ℚ) : Trend :=
  if values.length < 2 then .stable
  else
    corrTrend (cov (indexList values.length) values)
      (cov (indexList values.length) (indexList values.length) * cov values values)

end EmotionalDataAnalyzer

namespace SurveyService

/-- Embeds `SurveyService._calculate_trend` (src/services/survey.py lines
362-387): compare the mean of the second half against the mean of the
first half with thresholds ±0.5.  `mid = len // 2`; the `else values[0]`
arm for `mid = 0` is unreachable once `len ≥ 2` and is embedded as
`headD 0`. -/
def calculate_trend (values : List ℚ) : Trend :=
  if values.length < 2 then .stable
  else
    let mid := values.length / 2
    let first_half_avg : ℚ :=
      if 0 < mid then (values.take mid).sum / mid else values.headD 0
    let second_half_avg : ℚ := (values.drop mid).sum / (values.length - mid : ℕ)
    let diff := second_half_avg - first_half_avg
    if 1/2 < diff then .improving
    else if diff < -(1/2) then .declining
    else .stable

end SurveyService

/-- The correlation-based classifier as the specification words it,
with the Pearson coefficient in raw-sum form:
`num = n·Σxy − Σx·Σy`, `dx = n·Σx² − (Σx)²`, `dy = n·Σy² − (Σy)²`,
`corr = num/√(dx·dy)`, thresholds ±0.3 (sqrt-free via `corrTrend`),
and `stable` for fewer than two points. -/
def trendBySpecCorrelation (values : List ℚ) : Trend :=
  if values.length < 2 then .stable
  else
    let n : ℚ := values.length
    let idx := indexList values.length
    let num := n * (List.zipWith (fun a b => a * b) idx values).sum - idx.sum * values.sum
    let dx := n * (List.zipWith (fun a b => a * b) idx idx).sum - idx.sum * idx.sum
    let dy := n * (List.zipWith (fun a b => a * b) values values).sum - values.sum * values.sum
    corrTrend num (dx * dy)

/-! ### Persisted survey records and the router operations -/

/-- A persisted `Survey` row (src/models/survey.py lines 44-49): identity,
owner, the seven responses, and the two derived fields whose declared
defaults are `0.0` and `False`.  The timestamp and survey-type columns play
no role in any claim and are omitted. -/
structure SurveyRec where
  survey_id : ℕ
  user_id : String
  responses : SurveyResponses
  wellness_score : ℚ
  crisis_alert : Bool
deriving DecidableEq

namespace Survey

/-- Embeds `Survey.__init__` (src/models/survey.py lines 51-53): only the parent
initializer runs — the call to `_update_calculated_fields` is commented
out — so the derived fields keep their declared defaults
`wellness_score = 0.0` and `crisis_alert = False`. -/
def init (sid : ℕ) (uid : String) (r : SurveyResponses) : SurveyRec :=
  { survey_id := sid, user_id := uid, responses := r,
    wellness_score := 0, crisis_alert := false }

/-- Embeds `Survey._update_calculated_fields` (src/models/survey.py lines
55-58): recompute both derived fields from the current responses. -/
def update_calculated_fields (s : SurveyRec) : SurveyRec :=
  { s with wellness_score := calculate_wellness_score s.responses,
           crisis_alert := check_crisis_alert s.responses }

end Survey

/-- A PUT body after `model_dump(exclude_unset=True)`
(src/routers/survey.py line 117): for each response field, either absent
from the request (outer `none`) or an explicit new value (possibly
clearing the answer). -/
structure SurveyPatch where
  mood : Option (Option ℤ)
  anxiety : Option (Option ℤ)
  sleep : Option (Option ℤ)
  social : Option (Option ℤ)
  energy : Option (Option ℤ)
  stress : Option (Option ℤ)
  hopeful : Option (Option ℤ)

/-- The `setattr` loop of `update_survey` (src/routers/survey.py lines
118-119): fields present in the patch overwrite, the rest keep their
stored value. -/
def applyPatch (p : SurveyPatch) (r : SurveyResponses) : SurveyResponses :=
  { mood := p.mood.getD r.mood, anxiety := p.anxiety.getD r.anxiety,
    sleep := p.sleep.getD r.sleep, social := p.social.getD r.social,
    energy := p.energy.getD r.energy, stress := p.stress.getD r.stress,
    hopeful := p.hopeful.getD r.hopeful }

/-- Embeds `create_survey` (src/routers/survey.py lines 20-43): construct the
record from the request body (which carries only response fields, never
the derived ones), run `_update_calculated_fields`, and persist. -/
def create_survey (sid : ℕ) (uid : String) (data : SurveyResponses)
    (state : List SurveyRec) : List SurveyRec :=
  Survey.update_calculated_fields (Survey.init sid uid data) :: state

/-- Embeds `update_survey` (src/routers/survey.py lines 101-126): apply the
patch to the matching record's response fields, then run
`_update_calculated_fields` before persisting; a missing id leaves the
store unchanged (the router answers 404). -/
def update_survey (sid : ℕ) (p : SurveyPatch) (state : List SurveyRec) : List SurveyRec :=
  state.map (fun s =>
    if s.survey_id = sid then
      Survey.update_calculated_fields { s with responses := applyPatch p s.responses }
    else s)

/-- Embeds `delete_survey` (src/routers/survey.py lines 86-99). -/
def delete_survey (sid : ℕ) (state : List SurveyRec) : List SurveyRec :=
  state.filter (fun s => s.survey_id ≠ sid)

/-- Stores reachable from the empty store through the router
operations. -/
inductive Reachable : List SurveyRec → Prop where
  | empty : Reachable []
  | create (sid : ℕ) (uid : String) (data : SurveyResponses) {s : List SurveyRec} :
      Reachable s → Reachable (create_survey sid uid data s)
  | update (sid : ℕ) (p : SurveyPatch) {s : List SurveyRec} :
      Reachable s → Reachable (update_survey sid p s)
  | delete (sid : ℕ) {s : List SurveyRec} :
      Reachable s → Reachable (delete_survey sid s)

/-! ### Per-user risk aggregation (`analyze_user_risk_patterns`) -/

/-- A pandas column mean with the default `skipna=True`: absent cells are
ignored; a column with no present cell has mean NaN, modelled `none`. -/
def colMean (l : List (Option ℤ)) : Option ℚ :=
  let vals := l.filterMap id
  if vals.isEmpty then none
  else some ((List.map (fun v : ℤ => (v : ℚ)) vals).sum / vals.length)

/-- The per-user row built by `analyze_user_risk_patterns`
(src/analysis/data_analyzer.py lines 276-295), restricted to the numeric
fields the claims are about. -/
structure UserSummary where
  total_surveys : ℕ
  avg_mood : Option ℚ
  avg_wellness : ℚ
  avg_anxiety : Option ℚ
  avg_sleep : Option ℚ
  avg_social : Option ℚ
  avg_energy : Option ℚ
  avg_stress : Option ℚ
  avg_hopeful : Option ℚ
  crisis_count : ℕ
  crisis_rate : ℚ
deriving DecidableEq

/-- The aggregation `analyze_user_risk_patterns` performs over one user's
(nonempty) survey rows: plain column means, with no filtering of rows
whose `wellness_score` is the `0.0` sentinel.  The `wellness_score`
column is always populated, so its pandas mean is the sum over ALL rows
divided by the row count. -/
def summarize_user (recs : List SurveyRec) : UserSummary :=
  { total_surveys := recs.length
    avg_mood := colMean (recs.map (fun r => r.responses.mood))
    avg_wellness := (recs.map (fun r => r.wellness_score)).sum / recs.length
    avg_anxiety := colMean (recs.map (fun r => r.responses.anxiety))
    avg_sleep := colMean (recs.map (fun r => r.responses.sleep))
    avg_social := colMean (recs.map (fun r => r.responses.social))
    avg_energy := colMean (recs.map (fun r => r.responses.energy))
    avg_stress := colMean (recs.map (fun r => r.responses.stress))
    avg_hopeful := colMean (recs.map (fun r => r.responses.hopeful))
    crisis_count := (recs.filter (fun r => r.crisis_alert)).length
    crisis_rate :=
      if 0 < recs.length then
        ((recs.filter (fun r => r.crisis_alert)).length : ℚ) / recs.length * 100
      else 0 }

/-- Embeds `analyze_user_risk_patterns` (src/analysis/data_analyzer.py lines
246-298): one row per user, but only when `not user_surveys.empty` — a
user whose survey list is empty is skipped, not given a default row. -/
def analyze_user_risk_patterns (users : List String) (surveys : List SurveyRec) :
    List (String × UserSummary) :=
  users.filterMap (fun u =>
    let user_surveys := surveys.filter (fun s => s.user_id = u)
    if user_surveys.isEmpty then none else some (u, summarize_user user_surveys))

/-- The claim's reading of the profiler (from the specification): average
wellness taken only over records whose score differs from the `0.0`
sentinel. -/
def filtered_avg_wellness (recs : List SurveyRec) : ℚ :=
  meanQ ((recs.filter (fun r => r.wellness_score ≠ 0)).map (fun r => r.wellness_score))

/-- pandas comparison of a possibly-NaN mean against a bound: NaN (absent)
compares false. -/
def optLE (o : Option ℚ) (t : ℚ) : Bool :=
  match o with
  | none => false
  | some v => v ≤ t

/-- The high-risk row filter of `detect_risk_patterns`
(src/analysis/data_analyzer.py lines 415-419) at its default
`risk_threshold = 6.0`. -/
def high_risk (u : UserSummary) : Bool :=
  (u.avg_wellness ≤ 6) || (30 ≤ u.crisis_rate) || optLE u.avg_hopeful 2

/-! ### Demographic distributions (`value_counts`) -/

/-- pandas `Series.value_counts()` with its default `dropna=True`
(used on the gender/context columns in `generate_descriptive_statistics`
lines 168-175 and `analyze_gender_patterns` lines 336-337): absent values
are discarded before counting, and the keys are exactly the present
values. -/
def value_counts (l : List (Option String)) : List (String × ℕ) :=
  let vals := l.filterMap id
  vals.dedup.map (fun v => (v, vals.count v))

/-! ## Lemmas and theorems -/

lemma truthy_of_inRange {o : Option ℤ} (h : inRange o = true) :
    truthy o = o.isSome := by
  cases o with
  | none => rfl
  | some v =>
    simp only [inRange, Bool.and_eq_true, decide_eq_true_eq] at h
    simp only [truthy, Option.isSome_some, decide_eq_true_eq]
    omega

lemma orThree_of_inRange {o : Option ℤ} (h : inRange o = true) :
    orThree o = o.getD 3 := by
  cases o with
  | none => rfl
  | some v =>
    simp only [inRange, Bool.and_eq_true, decide_eq_true_eq] at h
    simp only [orThree, Option.getD_some, ite_eq_right_iff]
    omega

lemma anyTruthy_eq_not_allAbsent {r : SurveyResponses} (h : Valid r) :
    anyTruthy r = !allAbsent r := by
  obtain ⟨h1, h2, h3, h4, h5, h6, h7⟩ := h
  simp only [anyTruthy, allAbsent, truthy_of_inRange h1, truthy_of_inRange h2,
    truthy_of_inRange h3, truthy_of_inRange h4, truthy_of_inRange h5,
    truthy_of_inRange h6, truthy_of_inRange h7]
  cases r.mood <;> cases r.anxiety <;> cases r.sleep <;> cases r.social <;>
    cases r.energy <;> cases r.stress <;> cases r.hopeful <;> rfl

lemma truthyLE_of_inRange {o : Option ℤ} (h : inRange o = true) (t : ℤ) :
    truthyLE o t = specLE o t := by
  cases o with
  | none => rfl
  | some v =>
    simp only [inRange, Bool.and_eq_true, decide_eq_true_eq] at h
    have hv : v ≠ 0 := by omega
    simp [truthyLE, specLE, hv]

lemma truthyGE_of_inRange {o : Option ℤ} (h : inRange o = true) (t : ℤ) :
    truthyGE o t = specGE o t := by
  cases o with
  | none => rfl
  | some v =>
    simp only [inRange, Bool.and_eq_true, decide_eq_true_eq] at h
    have hv : v ≠ 0 := by omega
    simp [truthyGE, specGE, hv]

/-- C1: for every valid response set, the wellness score is exactly 0 when
every field is absent, and otherwise equals the specification's clamped
formula (3 substituted for absent fields) and lies in `[1,5]`. -/
theorem wellness_score_matches_spec (r : SurveyResponses) (h : Valid r) :
    (allAbsent r = true → calculate_wellness_score r = 0) ∧
    (allAbsent r = false →
      calculate_wellness_score r = specClampedScore r ∧
        1 ≤ calculate_wellness_score r ∧ calculate_wellness_score r ≤ 5) := by
  have hb := anyTruthy_eq_not_allAbsent h
  obtain ⟨h1, h2, h3, h4, h5, h6, h7⟩ := h
  constructor
  · intro ha
    rw [calculate_wellness_score, hb, ha]
    simp
  · intro ha
    have hsc : calculate_wellness_score r =
        max 1 (min 5
          ((orThree r.mood : ℚ) * (2/5)
            + (((orThree r.sleep + orThree r.social + orThree r.energy + orThree r.hopeful : ℤ) : ℚ) / 4) * (3/10)
            + (6 - ((orThree r.anxiety + orThree r.stress : ℤ) : ℚ) / 2) * (3/10))) := by
      rw [calculate_wellness_score, hb, ha]
      simp
    refine ⟨?_, ?_, ?_⟩
    · rw [hsc, specClampedScore, orThree_of_inRange h1, orThree_of_inRange h2,
        orThree_of_inRange h3, orThree_of_inRange h4, orThree_of_inRange h5,
        orThree_of_inRange h6, orThree_of_inRange h7]
    · rw [hsc]; exact le_max_left _ _
    · rw [hsc]
      exact max_le (by norm_num) (min_le_left _ _)

/-- Witness for C1 at the concrete input `mood = 2`, all other fields
absent. -/
theorem wellness_score_matches_spec_witness :
    Valid ⟨some 2, none, none, none, none, none, none⟩ ∧
    ((allAbsent ⟨some 2, none, none, none, none, none, none⟩ = true →
        calculate_wellness_score ⟨some 2, none, none, none, none, none, none⟩ = 0) ∧
      (allAbsent ⟨some 2, none, none, none, none, none, none⟩ = false →
        calculate_wellness_score ⟨some 2, none, none, none, none, none, none⟩ =
            specClampedScore ⟨some 2, none, none, none, none, none, none⟩ ∧
          1 ≤ calculate_wellness_score ⟨some 2, none, none, none, none, none, none⟩ ∧
            calculate_wellness_score ⟨some 2, none, none, none, none, none, none⟩ ≤ 5)) :=
  ⟨by decide, wellness_score_matches_spec _ (by decide)⟩

/-- C2: for every valid response set the crisis flag holds exactly when
mood is present and ≤ 2, or hopeful is present and ≤ 1, or the spec's
risk-hit count reaches 4; and the all-absent set raises no flag. -/
theorem crisis_alert_matches_spec (r : SurveyResponses) (h : Valid r) :
    (check_crisis_alert r = true ↔
      (specLE r.mood 2 = true ∨ specLE r.hopeful 1 = true ∨ 4 ≤ spec_risk_hits r)) ∧
    check_crisis_alert noData = false := by
  obtain ⟨h1, h2, h3, h4, h5, h6, h7⟩ := h
  have hrc : risk_count r = spec_risk_hits r := by
    rw [risk_count, spec_risk_hits, truthyLE_of_inRange h1, truthyGE_of_inRange h2,
      truthyGE_of_inRange h6, truthyLE_of_inRange h3, truthyLE_of_inRange h4,
      truthyLE_of_inRange h5, truthyLE_of_inRange h7]
  constructor
  · rw [check_crisis_alert, truthyLE_of_inRange h1, truthyLE_of_inRange h7, hrc]
    simp [or_assoc]
  · rfl

lemma indexList_length (n : ℕ) : (indexList n).length = n := by
  rw [indexList, List.length_map, List.length_range]

lemma zipWith_centered_sum (p q : ℚ) : ∀ (xs ys : List ℚ), xs.length = ys.length →
    (List.zipWith (fun a b => (a - p) * (b - q)) xs ys).sum =
      (List.zipWith (fun a b => a * b) xs ys).sum - p * ys.sum - q * xs.sum +
        (xs.length : ℚ) * (p * q)
  | [], [], _ => by simp
  | x :: xs, y :: ys, h => by
    have ih := zipWith_centered_sum p q xs ys (by simpa using h)
    simp only [List.zipWith_cons_cons, List.sum_cons, List.length_cons, ih]
    push_cast
    ring

lemma cov_mul_length (xs ys : List ℚ) (h : xs.length = ys.length)
    (hn : xs.length ≠ 0) :
    (xs.length : ℚ) * cov xs ys =
      (xs.length : ℚ) * (List.zipWith (fun a b => a * b) xs ys).sum - xs.sum * ys.sum := by
  have hq : (xs.length : ℚ) ≠ 0 := Nat.cast_ne_zero.mpr hn
  rw [cov, covAbout, zipWith_centered_sum _ _ _ _ h, meanQ, meanQ, ← h]
  field_simp
  ring

lemma corrTrend_scale {n : ℚ} (hn : 0 < n) (c d : ℚ) :
    corrTrend (n * c) (n ^ 2 * d) = corrTrend c d := by
  have h1 : 0 < n * c ↔ 0 < c := by
    constructor <;> intro h <;> nlinarith
  have h1' : n * c < 0 ↔ c < 0 := by
    constructor <;> intro h <;> nlinarith
  have h2 : 9 * (n ^ 2 * d) < 100 * (n * c) ^ 2 ↔ 9 * d < 100 * c ^ 2 := by
    have hn2 : 0 < n ^ 2 := by positivity
    constructor <;> intro h <;> nlinarith
  simp only [corrTrend, h1, h1', h2]

lemma analyzer_trend_eq_specCorrelation (values : List ℚ) :
    EmotionalDataAnalyzer.calculate_trend values = trendBySpecCorrelation values := by
  by_cases hl : values.length < 2
  · simp [EmotionalDataAnalyzer.calculate_trend, trendBySpecCorrelation, hl]
  · have hn : values.length ≠ 0 := by omega
    have hq : (0 : ℚ) < values.length := by
      exact_mod_cast Nat.pos_of_ne_zero hn
    have hidx : (indexList values.length).length = values.length := indexList_length _
    have h1 := cov_mul_length (indexList values.length) values (by rw [hidx]) (by rw [hidx]; exact hn)
    have h2 := cov_mul_length (indexList values.length) (indexList values.length) rfl
      (by rw [hidx]; exact hn)
    have h3 := cov_mul_length values values rfl hn
    rw [hidx] at h1 h2
    simp only [EmotionalDataAnalyzer.calculate_trend, trendBySpecCorrelation, if_neg hl]
    rw [← h1, ← h2, ← h3]
    rw [show (values.length : ℚ) * cov (indexList values.length) (indexList values.length) *
        ((values.length : ℚ) * cov values values) =
        (values.length : ℚ) ^ 2 *
          (cov (indexList values.length) (indexList values.length) * cov values values) by ring]
    rw [corrTrend_scale hq]

/-- C4: the canonical (correlation-based) trend classifier agrees
everywhere with the specification's Pearson-correlation formulation with
thresholds ±0.3, returns `stable` on empty and single-element input, and
classifies the three reference sequences as the specification states. -/
theorem trend_classifier_spec :
    (∀ values : List ℚ,
        EmotionalDataAnalyzer.calculate_trend values = trendBySpecCorrelation values) ∧
    EmotionalDataAnalyzer.calculate_trend [] = Trend.stable ∧
    (∀ x : ℚ, EmotionalDataAnalyzer.calculate_trend [x] = Trend.stable) ∧
    EmotionalDataAnalyzer.calculate_trend [1, 2, 3, 4, 5] = Trend.improving ∧
    EmotionalDataAnalyzer.calculate_trend [5, 4, 3, 2, 1] = Trend.declining ∧
    EmotionalDataAnalyzer.calculate_trend [3, 3, 3, 3] = Trend.stable := by
  refine ⟨analyzer_trend_eq_specCorrelation, by simp [EmotionalDataAnalyzer.calculate_trend],
    fun x => by simp [EmotionalDataAnalyzer.calculate_trend], ?_, ?_, ?_⟩
  · simp only [EmotionalDataAnalyzer.calculate_trend, corrTrend, cov, covAbout, meanQ, indexList]
    norm_num [List.range_succ]
  · simp only [EmotionalDataAnalyzer.calculate_trend, corrTrend, cov, covAbout, meanQ, indexList]
    norm_num [List.range_succ]
  · simp only [EmotionalDataAnalyzer.calculate_trend, corrTrend, cov, covAbout, meanQ, indexList]
    norm_num [List.range_succ]

/-- C8: the correlation-based classifier and the split-half classifier
disagree on the sequence `[1, 1, 1, 2]` (correlation ≈ 0.77 > 0.3 gives
`improving`; the half means 1 and 3/2 differ by exactly 0.5, not more,
giving `stable`). -/
theorem trend_variants_not_equivalent :
    EmotionalDataAnalyzer.calculate_trend [1, 1, 1, 2] ≠
      SurveyService.calculate_trend [1, 1, 1, 2] := by
  have h1 : EmotionalDataAnalyzer.calculate_trend [1, 1, 1, 2] = Trend.improving := by
    simp only [EmotionalDataAnalyzer.calculate_trend, corrTrend, cov, covAbout, meanQ, indexList]
    norm_num [List.range_succ]
  have h2 : SurveyService.calculate_trend [1, 1, 1, 2] = Trend.stable := by
    simp only [SurveyService.calculate_trend]
    norm_num
  rw [h1, h2]
  exact fun h => Trend.noConfusion h

/-- Witness for C2 at the concrete input `hopeful = 1`, all other fields
absent. -/
theorem crisis_alert_matches_spec_witness :
    Valid ⟨none, none, none, none, none, none, some 1⟩ ∧
    ((check_crisis_alert ⟨none, none, none, none, none, none, some 1⟩ = true ↔
        (specLE (⟨none, none, none, none, none, none, some 1⟩ : SurveyResponses).mood 2 = true ∨
          specLE (⟨none, none, none, none, none, none, some 1⟩ : SurveyResponses).hopeful 1 = true ∨
          4 ≤ spec_risk_hits ⟨none, none, none, none, none, none, some 1⟩)) ∧
      check_crisis_alert noData = false) :=
  ⟨by decide, crisis_alert_matches_spec _ (by decide)⟩

/-- C10: a `Survey` built by the constructor alone keeps the declared
defaults `wellness_score = 0` and `crisis_alert = false` whatever the
responses are, making it indistinguishable by score from an all-absent
record; only an explicit `update_calculated_fields` computes the derived
fields from the responses. -/
theorem constructor_keeps_default_derived_fields (sid : ℕ) (uid : String)
    (r : SurveyResponses) :
    (Survey.init sid uid r).wellness_score = 0 ∧
    (Survey.init sid uid r).crisis_alert = false ∧
    (Survey.init sid uid r).wellness_score = calculate_wellness_score noData ∧
    (Survey.update_calculated_fields (Survey.init sid uid r)).wellness_score =
      calculate_wellness_score r ∧
    (Survey.update_calculated_fields (Survey.init sid uid r)).crisis_alert =
      check_crisis_alert r :=
  ⟨rfl, rfl, rfl, rfl, rfl⟩

/-- C3: every record in a store reachable through the router's create and
update (and delete) operations carries derived fields equal to the scorer
applied to its current responses; both are recomputed together on every
create and on every patched update, and the request body carries no
derived field. -/
theorem persisted_derived_fields_invariant (state : List SurveyRec)
    (h : Reachable state) :
    ∀ rec ∈ state,
      rec.wellness_score = calculate_wellness_score rec.responses ∧
        rec.crisis_alert = check_crisis_alert rec.responses := by
  induction h with
  | empty =>
    intro rec hrec
    exact absurd hrec (List.not_mem_nil rec)
  | create sid uid data hs ih =>
    intro rec hrec
    rcases List.mem_cons.mp hrec with hh | hh
    · subst hh; exact ⟨rfl, rfl⟩
    · exact ih rec hh
  | update sid p hs ih =>
    intro rec hrec
    obtain ⟨s, hsmem, hseq⟩ := List.mem_map.mp hrec
    by_cases hid : s.survey_id = sid
    · rw [if_pos hid] at hseq
      subst hseq; exact ⟨rfl, rfl⟩
    · rw [if_neg hid] at hseq
      subst hseq; exact ih s hsmem
  | delete sid hs ih =>
    intro rec hrec
    exact ih rec (List.mem_of_mem_filter hrec)

/-- Witness for C3: the store obtained by one create from the empty store
is reachable, and its single record satisfies the invariant. -/
theorem persisted_derived_fields_invariant_witness :
    Survey.update_calculated_fields (Survey.init 0 "u" noData) ∈
        create_survey 0 "u" noData [] ∧
    ((Survey.update_calculated_fields (Survey.init 0 "u" noData)).wellness_score =
        calculate_wellness_score
          (Survey.update_calculated_fields (Survey.init 0 "u" noData)).responses ∧
      (Survey.update_calculated_fields (Survey.init 0 "u" noData)).crisis_alert =
        check_crisis_alert
          (Survey.update_calculated_fields (Survey.init 0 "u" noData)).responses) :=
  ⟨List.mem_cons_self _ _,
    persisted_derived_fields_invariant _ (Reachable.create 0 "u" noData Reachable.empty) _
      (List.mem_cons_self _ _)⟩

/-- C5: the high-risk filter of `detect_risk_patterns` is exactly the
disjunction avgWellness ≤ 6 ∨ crisisRate ≥ 30 ∨ avgHopeful ≤ 2 (NaN
hopeful compares false), and because each stored wellness score is at
most 5, every summarized user with at least one record passes it. -/
theorem high_risk_covers_every_user :
    (∀ u : UserSummary, high_risk u = true ↔
      (u.avg_wellness ≤ 6 ∨ 30 ≤ u.crisis_rate ∨ optLE u.avg_hopeful 2 = true)) ∧
    (∀ recs : List SurveyRec, recs ≠ [] → (∀ r ∈ recs, r.wellness_score ≤ 5) →
      high_risk (summarize_user recs) = true) := by
  constructor
  · intro u
    simp [high_risk, or_assoc]
  · intro recs hne hb
    have hlen : 0 < recs.length := List.length_pos.mpr hne
    have hlenq : (0 : ℚ) < recs.length := by exact_mod_cast hlen
    have hsum : (recs.map (fun r => r.wellness_score)).sum ≤ (recs.length : ℚ) * 5 := by
      have h5 := List.sum_le_card_nsmul (recs.map (fun r => r.wellness_score)) 5 ?_
      · rw [List.length_map, nsmul_eq_mul] at h5
        exact h5
      · intro x hx
        obtain ⟨r, hr, rfl⟩ := List.mem_map.mp hx
        exact hb r hr
    have havg : (summarize_user recs).avg_wellness ≤ 6 := by
      show (recs.map (fun r => r.wellness_score)).sum / (recs.length : ℚ) ≤ 6
      rw [div_le_iff₀ hlenq]
      nlinarith
    simp [high_risk, havg]

/-- Witness for C5: the singleton history consisting of one scored
all-absent survey is nonempty, bounded by 5, and classified high-risk. -/
theorem high_risk_covers_every_user_witness :
    (([Survey.update_calculated_fields (Survey.init 0 "u" noData)] : List SurveyRec) ≠ [] ∧
      ∀ r ∈ ([Survey.update_calculated_fields (Survey.init 0 "u" noData)] : List SurveyRec),
        r.wellness_score ≤ 5) ∧
    high_risk (summarize_user [Survey.update_calculated_fields (Survey.init 0 "u" noData)]) =
      true := by
  have hb : ∀ r ∈ ([Survey.update_calculated_fields (Survey.init 0 "u" noData)] :
      List SurveyRec), r.wellness_score ≤ 5 := by
    intro r hr
    rw [List.mem_singleton] at hr
    subst hr
    show (0 : ℚ) ≤ 5
    norm_num
  exact ⟨⟨by simp, hb⟩, high_risk_covers_every_user.2 _ (by simp) hb⟩

/-- Counterexample to C6: a user history holding one scored all-absent
record (stored score 0, the sentinel) and one record scoring 5.  The
profiler's average is 5/2 — the sentinel row is averaged in — while the
claimed sentinel-filtered average is 5. -/
theorem sentinel_rows_included_counterexample :
    (summarize_user [Survey.update_calculated_fields (Survey.init 0 "u" noData),
        Survey.update_calculated_fields
          (Survey.init 1 "u" ⟨some 5, some 1, some 5, some 5, some 5, some 1, some 5⟩)]).avg_wellness
      = 5/2 ∧
    filtered_avg_wellness [Survey.update_calculated_fields (Survey.init 0 "u" noData),
        Survey.update_calculated_fields
          (Survey.init 1 "u" ⟨some 5, some 1, some 5, some 5, some 5, some 1, some 5⟩)]
      = 5 ∧
    (summarize_user [Survey.update_calculated_fields (Survey.init 0 "u" noData),
        Survey.update_calculated_fields
          (Survey.init 1 "u" ⟨some 5, some 1, some 5, some 5, some 5, some 1, some 5⟩)]).avg_wellness
      ≠ filtered_avg_wellness [Survey.update_calculated_fields (Survey.init 0 "u" noData),
          Survey.update_calculated_fields
            (Survey.init 1 "u" ⟨some 5, some 1, some 5, some 5, some 5, some 1, some 5⟩)] := by
  have h1 : (summarize_user [Survey.update_calculated_fields (Survey.init 0 "u" noData),
      Survey.update_calculated_fields
        (Survey.init 1 "u" ⟨some 5, some 1, some 5, some 5, some 5, some 1, some 5⟩)]).avg_wellness
      = 5/2 := by
    simp only [summarize_user, Survey.update_calculated_fields, Survey.init,
      calculate_wellness_score, anyTruthy, truthy, orThree, noData]
    norm_num
  have h2 : filtered_avg_wellness [Survey.update_calculated_fields (Survey.init 0 "u" noData),
      Survey.update_calculated_fields
        (Survey.init 1 "u" ⟨some 5, some 1, some 5, some 5, some 5, some 1, some 5⟩)]
      = 5 := by
    simp only [filtered_avg_wellness, meanQ, Survey.update_calculated_fields, Survey.init,
      calculate_wellness_score, anyTruthy, truthy, orThree, noData]
    norm_num
  refine ⟨h1, h2, ?_⟩
  rw [h1, h2]
  norm_num

/-- C6 as amended: `analyze_user_risk_patterns` averages over ALL of a
user's rows — sentinel (0.0-score) rows included — so the stored average
times the row count equals the sum over every row, and every row counts
toward `total_surveys`. -/
theorem user_average_includes_sentinel_rows (recs : List SurveyRec) (h : recs ≠ []) :
    (summarize_user recs).total_surveys = recs.length ∧
    (summarize_user recs).avg_wellness * recs.length =
      (recs.map (fun r => r.wellness_score)).sum := by
  refine ⟨rfl, ?_⟩
  have hq : ((recs.length : ℚ)) ≠ 0 :=
    Nat.cast_ne_zero.mpr (List.length_pos.mpr h).ne'
  show (recs.map (fun r => r.wellness_score)).sum / (recs.length : ℚ) * recs.length = _
  rw [div_mul_cancel₀ _ hq]

/-- Witness for amended C6 at the two-record history of the
counterexample. -/
theorem user_average_includes_sentinel_rows_witness :
    (([Survey.update_calculated_fields (Survey.init 0 "u" noData),
        Survey.update_calculated_fields
          (Survey.init 1 "u" ⟨some 5, some 1, some 5, some 5, some 5, some 1, some 5⟩)] :
        List SurveyRec) ≠ []) ∧
    (summarize_user [Survey.update_calculated_fields (Survey.init 0 "u" noData),
        Survey.update_calculated_fields
          (Survey.init 1 "u" ⟨some 5, some 1, some 5, some 5, some 5, some 1, some 5⟩)]).avg_wellness *
        (([Survey.update_calculated_fields (Survey.init 0 "u" noData),
          Survey.update_calculated_fields
            (Survey.init 1 "u" ⟨some 5, some 1, some 5, some 5, some 5, some 1, some 5⟩)] :
          List SurveyRec).length) =
      (([Survey.update_calculated_fields (Survey.init 0 "u" noData),
          Survey.update_calculated_fields
            (Survey.init 1 "u" ⟨some 5, some 1, some 5, some 5, some 5, some 1, some 5⟩)] :
          List SurveyRec).map (fun r => r.wellness_score)).sum :=
  ⟨by simp, (user_average_includes_sentinel_rows _ (by simp)).2⟩

/-- Counterexample to C7: a known user with zero survey records produces
no row at all — the profiler output is empty, not a defined summary with
zeroed fields. -/
theorem zero_survey_user_counterexample :
    analyze_user_risk_patterns ["u1"] [] = [] := rfl

/-- C7 as amended: a user whose survey list is empty is silently omitted
from `analyze_user_risk_patterns` — no output row carries that user's
id (and no error is raised; the function is total). -/
theorem zero_survey_users_are_omitted (users : List String) (surveys : List SurveyRec)
    (u : String)
    (hu : (surveys.filter (fun s => s.user_id = u)).isEmpty = true) :
    ∀ p ∈ analyze_user_risk_patterns users surveys, p.1 ≠ u := by
  intro p hp heq
  obtain ⟨a, ha, hfa⟩ := List.mem_filterMap.mp hp
  by_cases hc : (surveys.filter (fun s => s.user_id = a)).isEmpty = true
  · rw [if_pos hc] at hfa
    exact Option.noConfusion hfa
  · rw [if_neg hc] at hfa
    have hpa : p = (a, summarize_user (surveys.filter (fun s => s.user_id = a))) :=
      (Option.some.inj hfa).symm
    rw [hpa] at heq
    simp only at heq
    rw [heq] at hc
    exact hc hu

/-- Witness for amended C7: with users `u1, u2` and a single survey owned
by `u2`, no output row belongs to `u1`. -/
theorem zero_survey_users_are_omitted_witness :
    ((([⟨0, "u2", noData, 0, false⟩] : List SurveyRec).filter
        (fun s => s.user_id = "u1")).isEmpty = true) ∧
    ∀ p ∈ analyze_user_risk_patterns ["u1", "u2"] [⟨0, "u2", noData, 0, false⟩],
      p.1 ≠ "u1" :=
  ⟨rfl, zero_survey_users_are_omitted _ _ _ rfl⟩

/-- Counterexample to C9: a population whose single demographic column
holds one present value `"m"` and one absent value.  `value_counts`
yields only `("m", 1)`: the absent value is dropped, and no `"unknown"`
bucket appears. -/
theorem missing_demographics_counterexample :
    value_counts [some "m", none] = [("m", 1)] ∧
    (value_counts [some "m", none]).lookup "unknown" = none := by
  exact ⟨rfl, rfl⟩

/-- C9 as amended: the pandas-default distributions drop absent
demographic values silently — the counts of `value_counts` total exactly
the number of present cells, and every reported key comes from a present
cell (no `"unknown"` bucket is synthesized); absence never raises. -/
theorem value_counts_drops_missing (l : List (Option String)) :
    ((value_counts l).map Prod.snd).sum = (l.filterMap id).length ∧
    (∀ k c, (k, c) ∈ value_counts l → some k ∈ l) := by
  constructor
  · simp only [value_counts]
    rw [List.map_map]
    exact List.sum_map_count_dedup_eq_length (l.filterMap id)
  · intro k c hm
    simp only [value_counts] at hm
    obtain ⟨v, hv, hveq⟩ := List.mem_map.mp hm
    have hk : v = k := congrArg Prod.fst hveq
    obtain ⟨a, ha, haeq⟩ := List.mem_filterMap.mp (List.mem_dedup.mp hv)
    have ha' : a = some v := haeq
    rw [ha', hk] at ha
    exact ha

/-- Witness for amended C9 at the concrete column `[some "m", none]`. -/
theorem value_counts_drops_missing_witness :
    (("m", 1) ∈ value_counts [some "m", none]) ∧
    ((value_counts [some "m", none]).map Prod.snd).sum =
      ([some "m", none].filterMap id).length ∧
    some "m" ∈ [some "m", none] :=
  ⟨by decide, (value_counts_drops_missing [some "m", none]).1,
    (value_counts_drops_missing [some "m", none]).2 "m" 1 (by decide)⟩

end EmoTracker
